import Mathlib

/-!
Verification of the polyclip repository (Martinez-Rueda-Feito boolean
operations on polygons) against its natural-language specification.

The source stores coordinates in the type fsize (f32 by default).  All
concrete inputs used below are small integers or simple fractions on which
f32 arithmetic is exact, so the embedding uses exact rationals; the
source applies no epsilon anywhere (spec section 4.1: equality and sign
tests are exact on the underlying floating representation).
-/

/-- 2D point, from src/point.rs (struct Point2D, fields x and y). -/
structure Point2D where
  x : ℚ
  y : ℚ
deriving DecidableEq

/-- Line-segment intersection test, from src/point.rs (fn line_intersect).
The translation follows the source line by line: when the cross product
of the two direction vectors (coef_div) is zero the function returns
Some((p0, None)); otherwise it solves the parametric system and returns
the intersection point when both parameters lie in the unit interval. -/
def line_intersect (p0 p1 p2 p3 : Point2D) : Option (Point2D × Option Point2D) :=
  let s1_x := p1.x - p0.x
  let s1_y := p1.y - p0.y
  let s2_x := p3.x - p2.x
  let s2_y := p3.y - p2.y
  let coef_div := -s2_x * s1_y + s1_x * s2_y
  if coef_div = 0 then
    -- source comment: lines merged to single point, avoid division by 0
    some (p0, none)
  else
    let s := (-s1_y * (p0.x - p2.x) + s1_x * (p0.y - p2.y)) / coef_div
    let t := (s2_x * (p0.y - p2.y) - s2_y * (p0.x - p2.x)) / coef_div
    if 0 ≤ t ∧ t ≤ 1 ∧ 0 ≤ s ∧ s ≤ 1 then
      some (⟨p0.x + t * s1_x, p0.y + t * s1_y⟩, none)
    else
      none

/-- Helper: the second component of a line_intersect result is always none
(no code path of src/point.rs ever produces a second point; the comment
on line 48 about a second point for parallel slopes is not implemented). -/
theorem line_intersect_snd_none (p0 p1 p2 p3 : Point2D) (pt : Point2D)
    (q : Option Point2D) (h : line_intersect p0 p1 p2 p3 = some (pt, q)) :
    q = none := by
  simp only [line_intersect] at h
  split at h
  · simp at h
    exact h.2.symm
  · split at h
    · simp at h
      exact h.2.symm
    · simp at h

/-- C1: for parallel and collinear segment pairs, line_intersect does NOT
report a distinct outcome, and parallel verticals do NOT return none:
the zero-cross-product branch returns Some((p0, None)), which is exactly
the shape of an ordinary single-intersection result.  The repository's
own tests (test_line_intersect_parallel_vertical and
test_line_intersect_parallel_diagonal in src/point.rs) assert None for
these inputs and therefore fail.  The conjuncts below evaluate the code:
the parallel-vertical pair of the claim returns Some(((0,0), None)); the
parallel-diagonal test pair likewise; the Scenario C intersecting pair
does return a single point (the one part of the claim the code meets). -/
theorem line_intersect_parallel_returns_merged_point :
    line_intersect ⟨0, 0⟩ ⟨0, 10⟩ ⟨2, 0⟩ ⟨2, 10⟩ = some (⟨0, 0⟩, none) ∧
    line_intersect ⟨0, 0⟩ ⟨5, 5⟩ ⟨2, 0⟩ ⟨7, 5⟩ = some (⟨0, 0⟩, none) ∧
    (line_intersect ⟨0, 10⟩ ⟨2, 0⟩ ⟨10, 0⟩ ⟨0, 5⟩).isSome = true := by
  refine ⟨?_, ?_, ?_⟩ <;> simp only [line_intersect] <;> norm_num

/-- Polygon source tag, from src/sweep_event.rs (enum PolygonType). -/
inductive PolygonType where
  | Subject
  | Clipping
deriving DecidableEq

/-- Edge classification, from src/sweep_event.rs (enum EdgeType). -/
inductive EdgeType where
  | Normal
  | NonContributing
  | SameTransition
  | DifferentTransition
deriving DecidableEq

/-- Twice the signed area of the triangle (p0, p1, p2), from
src/utils.rs (fn calculate_signed_area3). -/
def calculate_signed_area3 (p0 p1 p2 : Point2D) : ℚ :=
  (p0.x - p2.x) * (p1.y - p2.y) - (p1.x - p2.x) * (p0.y - p2.y)

/-- Sweep event as read by the comparator, from src/sweep_event.rs
(struct SweepEvent).  The comparator methods below, above and compare
read only the point p, the left flag, and the point of the twin event
reached through the raw pointer field other; the pointer dereference
((*self.other).inner.get()).p is embedded shallowly as the field
other_p holding the twin's point. -/
structure SweepEvent where
  p : Point2D
  other_p : Point2D
  left : Bool
deriving DecidableEq

/-- Is the line segment (p, other->p) below the given point, from
src/sweep_event.rs (SweepEvent::below). -/
def SweepEvent.below (self : SweepEvent) (other : Point2D) : Bool :=
  if self.left then
    decide (calculate_signed_area3 self.p self.other_p other > 0)
  else
    decide (calculate_signed_area3 self.other_p self.p other > 0)

/-- Is the line segment (p, other->p) above the given point, from
src/sweep_event.rs (SweepEvent::above). -/
def SweepEvent.above (self : SweepEvent) (other : Point2D) : Bool :=
  !(self.below other)

/-- The event comparator, from src/sweep_event.rs (SweepEvent::compare).
Returning true means self is placed in the event queue after other.
Note the final tie-break line of the source:
self.above(&(*(*self.other).inner.get()).p) tests self against the
point of self's OWN twin (self.other), not the other event's twin. -/
def SweepEvent.compare (self other : SweepEvent) : Bool :=
  if self.p.x > other.p.x then true
  else if other.p.x > self.p.x then false
  else if self.p ≠ other.p then decide (self.p.y > other.p.y)
  else if self.left ≠ other.left then self.left
  else self.above self.other_p

/-- Helper: a segment is never strictly below one of its own endpoints:
the signed area of the degenerate triangle is zero. -/
theorem below_own_twin_false (e : SweepEvent) : e.below e.other_p = false := by
  unfold SweepEvent.below calculate_signed_area3
  split <;> · simp only [decide_eq_false_iff_not, not_lt]
              ring_nf
              exact le_refl 0

/-- Helper: on events whose points are equal and whose left flags are
equal, compare always returns true (the tie-break tests the event
against its own twin point, and the above-test at a segment's own
endpoint always answers true). -/
theorem compare_same_point_same_left (a b : SweepEvent)
    (hp : a.p = b.p) (hl : a.left = b.left) :
    SweepEvent.compare a b = true := by
  unfold SweepEvent.compare
  rw [hp, hl]
  simp only [lt_self_iff_false, if_false, ne_eq, not_true_eq_false, if_neg,
    gt_iff_lt]
  simp [SweepEvent.above, below_own_twin_false]

/-- C2 counterexample: the comparator is not irreflexive.  For the
concrete event e at (0,0) with twin point (1,1), compare(e,e) = true:
the event is ordered strictly after itself, so the order induced on any
event set containing e is not a strict total order (Ord::cmp in
src/sweep_event.rs returns Greater for cmp(e,e), never Equal). -/
theorem compare_not_irreflexive :
    SweepEvent.compare ⟨⟨0, 0⟩, ⟨1, 1⟩, true⟩ ⟨⟨0, 0⟩, ⟨1, 1⟩, true⟩ = true :=
  compare_same_point_same_left _ _ rfl rfl


/-- Helper: two points with equal coordinates are equal. -/
theorem Point2D.ext_xy (p q : Point2D) (hx : p.x = q.x) (hy : p.y = q.y) :
    p = q := by
  cases p
  cases q
  simp_all

/-- Helper: on events at distinct points, compare is the strict
lexicographic (x, then y) comparison of the points. -/
theorem compare_distinct (a b : SweepEvent) (hp : a.p ≠ b.p) :
    SweepEvent.compare a b = true ↔
      (b.p.x < a.p.x ∨ (a.p.x = b.p.x ∧ b.p.y < a.p.y)) := by
  unfold SweepEvent.compare
  by_cases h1 : b.p.x < a.p.x
  · simp [gt_iff_lt, h1]
  · by_cases h2 : a.p.x < b.p.x
    · simp [gt_iff_lt, h1, h2, ne_of_lt h2]
    · have hx : a.p.x = b.p.x := le_antisymm (not_lt.mp h1) (not_lt.mp h2)
      simp [gt_iff_lt, h1, h2, hp, hx]

/-- C2 amended: restricted to events at pairwise distinct points the
comparator behaves as a strict total order (exactly one of compare(a,b)
and compare(b,a) holds, and compare is transitive); but on events
sharing point and left flag it is degenerate: compare returns true in
both directions, so it is neither irreflexive nor antisymmetric there
and is not a strict total order on all generated event sets. -/
theorem compare_strict_total_on_distinct_points :
    (∀ a b : SweepEvent, a.p ≠ b.p →
      SweepEvent.compare a b = !SweepEvent.compare b a) ∧
    (∀ a b c : SweepEvent, a.p ≠ b.p → b.p ≠ c.p →
      SweepEvent.compare a b = true → SweepEvent.compare b c = true →
      SweepEvent.compare a c = true) ∧
    (∀ a b : SweepEvent, a.p = b.p → a.left = b.left →
      SweepEvent.compare a b = true) := by
  refine ⟨?_, ?_, compare_same_point_same_left⟩
  · intro a b hp
    rcases hab : SweepEvent.compare a b with _ | _ <;>
      rcases hba : SweepEvent.compare b a with _ | _
    · exfalso
      have h1 : ¬(b.p.x < a.p.x ∨ (a.p.x = b.p.x ∧ b.p.y < a.p.y)) := by
        rw [← compare_distinct a b hp, hab]
        simp
      have h2 : ¬(a.p.x < b.p.x ∨ (b.p.x = a.p.x ∧ a.p.y < b.p.y)) := by
        rw [← compare_distinct b a (Ne.symm hp), hba]
        simp
      push_neg at h1 h2
      have hx : a.p.x = b.p.x := le_antisymm h1.1 h2.1
      have hy : a.p.y = b.p.y := le_antisymm (h1.2 hx) (h2.2 hx.symm)
      exact hp (Point2D.ext_xy _ _ hx hy)
    · rfl
    · rfl
    · exfalso
      have h1 := (compare_distinct a b hp).mp hab
      have h2 := (compare_distinct b a (Ne.symm hp)).mp hba
      rcases h1 with h1 | ⟨hx1, hy1⟩ <;> rcases h2 with h2 | ⟨hx2, hy2⟩ <;>
        linarith
  · intro a b c hab hbc h1 h2
    rw [compare_distinct a b hab] at h1
    rw [compare_distinct b c hbc] at h2
    have hac : c.p.x < a.p.x ∨ (a.p.x = c.p.x ∧ c.p.y < a.p.y) := by
      rcases h1 with h1 | ⟨hx1, hy1⟩ <;> rcases h2 with h2 | ⟨hx2, hy2⟩
      · exact Or.inl (lt_trans h2 h1)
      · exact Or.inl (by rw [← hx2]; exact h1)
      · exact Or.inl (by rw [hx1]; exact h2)
      · exact Or.inr ⟨hx1.trans hx2, lt_trans hy2 hy1⟩
    have hpac : a.p ≠ c.p := by
      intro h
      rcases hac with h3 | ⟨_, h3⟩ <;> rw [h] at h3 <;> exact lt_irrefl _ h3
    rw [compare_distinct a c hpac]
    exact hac

/-- C2 witness: the amended statement applied at concrete events: two
events at the distinct points (0,0) and (1,0) order asymmetrically. -/
theorem compare_strict_total_on_distinct_points_witness :
    (⟨⟨0, 0⟩, ⟨1, 0⟩, true⟩ : SweepEvent).p ≠
      (⟨⟨1, 0⟩, ⟨0, 0⟩, false⟩ : SweepEvent).p ∧
    SweepEvent.compare ⟨⟨0, 0⟩, ⟨1, 0⟩, true⟩ ⟨⟨1, 0⟩, ⟨0, 0⟩, false⟩ =
      !SweepEvent.compare ⟨⟨1, 0⟩, ⟨0, 0⟩, false⟩ ⟨⟨0, 0⟩, ⟨1, 0⟩, true⟩ :=
  ⟨by decide, compare_strict_total_on_distinct_points.1 _ _ (by decide)⟩

/-- C3: the tie-break for events with equal point and equal left flag
compares the event against its OWN twin point instead of the other
event's twin point.  Failing input: left events a at (0,0) with twin
(1,0) and b at (0,0) with twin (1,1).  Edge a lies below b's twin point
(third conjunct) while b does not lie below a's twin point (fourth), so
per the claim (and the draft comparator in src/algorithm.rs line 113,
which reads (*other.other).p) a must precede b; the shipped comparator
in src/sweep_event.rs line 179 instead returns true for BOTH orders,
ordering each event after the other and ignoring the below-test. -/
theorem compare_tiebreak_ignores_other_twin :
    SweepEvent.compare ⟨⟨0, 0⟩, ⟨1, 0⟩, true⟩ ⟨⟨0, 0⟩, ⟨1, 1⟩, true⟩ = true ∧
    SweepEvent.compare ⟨⟨0, 0⟩, ⟨1, 1⟩, true⟩ ⟨⟨0, 0⟩, ⟨1, 0⟩, true⟩ = true ∧
    SweepEvent.below ⟨⟨0, 0⟩, ⟨1, 0⟩, true⟩
      (⟨⟨0, 0⟩, ⟨1, 1⟩, true⟩ : SweepEvent).other_p = true ∧
    SweepEvent.below ⟨⟨0, 0⟩, ⟨1, 1⟩, true⟩
      (⟨⟨0, 0⟩, ⟨1, 0⟩, true⟩ : SweepEvent).other_p = false := by
  refine ⟨compare_same_point_same_left _ _ rfl rfl,
          compare_same_point_same_left _ _ rfl rfl, ?_, ?_⟩ <;>
    · simp only [SweepEvent.below, calculate_signed_area3]
      norm_num

/-- Winding order, from src/polygon.rs (enum WindingOrder). -/
inductive WindingOrder where
  | Clockwise
  | CounterClockwise
deriving DecidableEq

/-- Boolean operation selector, from src/polygon.rs (enum BoolOpType). -/
inductive BoolOpType where
  | Intersection
  | Union
  | Difference
  | Xor
deriving DecidableEq

/-- Polygon, from src/polygon.rs (struct Polygon): node list, hole flag,
closed flag, optional cached winding order. -/
structure Polygon where
  nodes : List Point2D
  is_hole : Bool
  is_closed : Bool
  winding : Option WindingOrder
deriving DecidableEq

/-- Bounding box, from src/bbox.rs (struct Bbox). -/
structure Bbox where
  top : ℚ
  right : ℚ
  bottom : ℚ
  left : ℚ
deriving DecidableEq

/-- Bounding-box overlap test, from src/bbox.rs (Bbox::overlaps). -/
def Bbox.overlaps (self other : Bbox) : Bool :=
  !(decide (other.left > self.right) || decide (other.right < self.left) ||
    decide (other.top < self.bottom) || decide (other.bottom > self.top))

/-- The value of f32::MAX, with which calculate_bounding_box seeds its
running minima and maxima (src/polygon.rs lines 418-432, default
single-precision build). -/
def fsizeMAX : ℚ := 2 ^ 128 - 2 ^ 104

/-- The accumulation loop of calculate_bounding_box, from
src/polygon.rs lines 434-447: each node widens the running extrema. -/
def bbox_fold (nodes : List Point2D) (min_x min_y max_x max_y : ℚ) : Bbox :=
  match nodes with
  | [] => { top := max_y, right := max_x, bottom := min_y, left := min_x }
  | node :: rest =>
    bbox_fold rest
      (if node.x < min_x then node.x else min_x)
      (if node.y < min_y then node.y else min_y)
      (if node.x > max_x then node.x else max_x)
      (if node.y > max_y then node.y else max_y)

/-- Bounding box of a node list, from src/polygon.rs
(fn calculate_bounding_box). -/
def calculate_bounding_box (nodes : List Point2D) : Bbox :=
  bbox_fold nodes fsizeMAX fsizeMAX (-fsizeMAX) (-fsizeMAX)

/-- Outcome of the pre-sweep part of Polygon::calculate
(src/polygon.rs lines 95-127): either a trivial result returned before
any sweep machinery is built, or the decision to run the sweep. -/
inductive CalcOutcome where
  | trivial (r : Option (List Polygon))
  | sweep
deriving DecidableEq

/-- The trivial-result shortcuts executed at the top of
Polygon::calculate, from src/polygon.rs lines 95-127, translated
condition for condition: (1) if either node list is empty, a
per-operation answer; (2) if either polygon has fewer than 3 nodes,
None for every operation (source comment: cannot subtract a polygon and
a line); (3) if the bounding boxes do not overlap, a per-operation
answer; otherwise the sweep runs. -/
def calculate_trivial (self other : Polygon) (operation_type : BoolOpType) :
    CalcOutcome :=
  if self.nodes.length * other.nodes.length = 0 then
    match operation_type with
    | .Difference => .trivial (some [self])
    | .Intersection => .trivial none
    | .Union | .Xor =>
      if self.nodes.isEmpty then .trivial (some [other])
      else .trivial (some [self])
  else if self.nodes.length < 3 ∨ other.nodes.length < 3 then
    .trivial none
  else
    let self_bbox := calculate_bounding_box self.nodes
    let other_bbox := calculate_bounding_box other.nodes
    if !(self_bbox.overlaps other_bbox) then
      match operation_type with
      | .Difference => .trivial (some [self])
      | .Intersection => .trivial none
      | .Union | .Xor => .trivial (some [self, other])
    else
      .sweep

/-- C4 counterexample: a two-node (non-empty, degenerate) subject with a
triangle clip under Difference returns None, not the subject unchanged:
the fewer-than-3-points shortcut ignores the per-operation table. -/
theorem calculate_trivial_line_returns_none :
    calculate_trivial
      ⟨[⟨0, 0⟩, ⟨1, 0⟩], false, true, none⟩
      ⟨[⟨0, 0⟩, ⟨3, 0⟩, ⟨0, 3⟩], false, true, none⟩
      BoolOpType.Difference = CalcOutcome.trivial none ∧
    CalcOutcome.trivial (none : Option (List Polygon)) ≠
      CalcOutcome.trivial
        (some [⟨[⟨0, 0⟩, ⟨1, 0⟩], false, true, none⟩]) := by
  constructor
  · decide
  · decide

/-- C4 amended: the empty-input and disjoint-bounding-box cases follow
the per-operation table (Difference keeps the subject; Intersection is
empty; Union and Xor return both inputs, or the non-empty one when one
input is empty); but when both inputs are non-empty and either has
fewer than 3 points, EVERY operation returns None before the sweep,
not the per-operation table. -/
theorem calculate_trivial_table :
    (∀ a b : Polygon, 3 ≤ a.nodes.length → 3 ≤ b.nodes.length →
      Bbox.overlaps (calculate_bounding_box a.nodes)
        (calculate_bounding_box b.nodes) = false →
      calculate_trivial a b .Difference = .trivial (some [a]) ∧
      calculate_trivial a b .Intersection = .trivial none ∧
      calculate_trivial a b .Union = .trivial (some [a, b]) ∧
      calculate_trivial a b .Xor = .trivial (some [a, b])) ∧
    (∀ a b : Polygon, a.nodes ≠ [] → b.nodes ≠ [] →
      (a.nodes.length < 3 ∨ b.nodes.length < 3) →
      ∀ op : BoolOpType, calculate_trivial a b op = .trivial none) ∧
    (∀ a b : Polygon, a.nodes = [] →
      calculate_trivial a b .Difference = .trivial (some [a]) ∧
      calculate_trivial a b .Intersection = .trivial none ∧
      calculate_trivial a b .Union = .trivial (some [b]) ∧
      calculate_trivial a b .Xor = .trivial (some [b])) ∧
    (∀ a b : Polygon, a.nodes ≠ [] → b.nodes = [] →
      calculate_trivial a b .Difference = .trivial (some [a]) ∧
      calculate_trivial a b .Intersection = .trivial none ∧
      calculate_trivial a b .Union = .trivial (some [a]) ∧
      calculate_trivial a b .Xor = .trivial (some [a])) := by
  refine ⟨?_, ?_, ?_, ?_⟩
  · intro a b h3a h3b hov
    have h1 : ¬(a.nodes.length * b.nodes.length = 0) := by
      have := Nat.mul_ne_zero (by omega : a.nodes.length ≠ 0)
        (by omega : b.nodes.length ≠ 0)
      exact this
    have h2 : ¬(a.nodes.length < 3 ∨ b.nodes.length < 3) := by omega
    refine ⟨?_, ?_, ?_, ?_⟩ <;> simp [calculate_trivial, h1, h2, hov]
  · intro a b ha hb hlt op
    have h1 : ¬(a.nodes.length * b.nodes.length = 0) := by
      have ha' : a.nodes.length ≠ 0 := by simpa using ha
      have hb' : b.nodes.length ≠ 0 := by simpa using hb
      exact Nat.mul_ne_zero ha' hb'
    cases op <;> simp [calculate_trivial, h1, hlt]
  · intro a b ha
    have h1 : a.nodes.length * b.nodes.length = 0 := by simp [ha]
    refine ⟨?_, ?_, ?_, ?_⟩ <;> simp [calculate_trivial, h1, ha]
  · intro a b ha hb
    have h1 : a.nodes.length * b.nodes.length = 0 := by simp [hb]
    have ha' : a.nodes.isEmpty = false := by
      simpa [List.isEmpty_iff] using ha
    refine ⟨?_, ?_, ?_, ?_⟩ <;> simp [calculate_trivial, h1, ha']

/-- C4 witness: the amended statement applied at a concrete pair: a
non-empty two-node subject and a triangle clip give None under Union. -/
theorem calculate_trivial_table_witness :
    calculate_trivial
      ⟨[⟨0, 0⟩, ⟨1, 0⟩], false, true, none⟩
      ⟨[⟨0, 0⟩, ⟨3, 0⟩, ⟨0, 3⟩], false, true, none⟩
      BoolOpType.Union = CalcOutcome.trivial none :=
  calculate_trivial_table.2.1
    ⟨[⟨0, 0⟩, ⟨1, 0⟩], false, true, none⟩
    ⟨[⟨0, 0⟩, ⟨3, 0⟩, ⟨0, 3⟩], false, true, none⟩
    (by decide) (by decide) (by decide) BoolOpType.Union

/-- The right-event emission decision of the sweep loop, from
src/polygon.rs lines 264-299 (the match on edge_type in the right-event
branch of Polygon::calculate), translated arm for arm.  The inputs are
the popped event's edge_type, the operation, the event's polygon_type,
and the is_inside flag of the event's twin (other); the output says
whether Segment::new(event.p, other.p) is added to the Connector. -/
def emit_right_event (edge_type : EdgeType) (operation_type : BoolOpType)
    (polygon_type : PolygonType) (other_is_inside : Bool) : Bool :=
  match edge_type with
  | .Normal =>
    match operation_type with
    | .Intersection => other_is_inside
    | .Union => !other_is_inside
    | .Difference =>
      (decide (polygon_type = .Subject) && !other_is_inside) ||
      (decide (polygon_type = .Clipping) && other_is_inside)
    | .Xor => true
  | .SameTransition =>
    decide (operation_type = .Intersection) || decide (operation_type = .Union)
  | .DifferentTransition => decide (operation_type = .Difference)
  | .NonContributing => false

/-- Modelled from the spec: the emission table of spec section 4.6,
written row by row from the table text (emit segment iff condition
holds, keyed by edge_type and operation). -/
def emission_table (edge_type : EdgeType) (operation_type : BoolOpType)
    (polygon_type : PolygonType) (twin_is_inside : Bool) : Bool :=
  match edge_type, operation_type with
  | .Normal, .Intersection => twin_is_inside
  | .Normal, .Union => !twin_is_inside
  | .Normal, .Difference =>
    match polygon_type with
    | .Subject => !twin_is_inside
    | .Clipping => twin_is_inside
  | .Normal, .Xor => true
  | .SameTransition, .Intersection => true
  | .SameTransition, .Union => true
  | .SameTransition, .Difference => false
  | .SameTransition, .Xor => false
  | .DifferentTransition, .Difference => true
  | .DifferentTransition, _ => false
  | .NonContributing, _ => false

/-- C7: the right-event emission decision implemented by the sweep loop
coincides with the specification's emission table for every edge type,
operation, polygon source tag and twin is_inside flag. -/
theorem emit_right_event_matches_table :
    ∀ (et : EdgeType) (op : BoolOpType) (pt : PolygonType) (ins : Bool),
      emit_right_event et op pt ins = emission_table et op pt ins := by
  intro et op pt ins
  cases et <;> cases op <;> cases pt <;> cases ins <;> rfl

/-- Control-flow outcome of possible_intersection, from src/polygon.rs
lines 457-661.  In the current source the function has no observable
effect on the event graph: every divide_segment call and all edge_type
assignments are commented out.  The only branching that remains is on
the result of line_intersect: None returns immediately (noop); a result
with a second point either prints the self-overlap warning when both
edges come from the same polygon (warnSelfOverlap, line 554) or falls
through to the commented-out overlap code (overlapContinue); a result
with a single point runs only commented-out code and returns (noop). -/
inductive PIOutcome where
  | noop
  | warnSelfOverlap
  | overlapContinue
deriving DecidableEq

/-- possible_intersection, from src/polygon.rs (fn possible_intersection),
reduced to its control-flow outcome.  The four points are e1.p,
(*e1.other).p, e2.p, (*e2.other).p as read on lines 539-542. -/
def possible_intersection (e1_p e1_other_p e2_p e2_other_p : Point2D)
    (t1 t2 : PolygonType) : PIOutcome :=
  match line_intersect e1_p e1_other_p e2_p e2_other_p with
  | none => .noop
  | some (_, some _) => if t1 = t2 then .warnSelfOverlap else .overlapContinue
  | some (_, none) => .noop

/-- C5 counterexample: two collinearly overlapping edges of the SAME
polygon — (0,0)-(5,5) and (2,2)-(7,7), both Subject — produce no
failure signal at all: possible_intersection returns noop (line_intersect
collapses the overlap case into Some((p0, None)), so not even the
warning branch is reached), and the operation's result type
Option<Vec<Polygon>> has no error variant to fail with. -/
theorem possible_intersection_self_overlap_noop :
    possible_intersection ⟨0, 0⟩ ⟨5, 5⟩ ⟨2, 2⟩ ⟨7, 7⟩
      PolygonType.Subject PolygonType.Subject = PIOutcome.noop ∧
    PIOutcome.noop ≠ PIOutcome.warnSelfOverlap := by
  constructor
  · simp only [possible_intersection, line_intersect]
    norm_num
  · decide

/-- C5 amended: the operation never fails on self-overlapping input:
possible_intersection returns noop on EVERY input (its warning branch is
unreachable because line_intersect never produces a second intersection
point), no SelfOverlappingPolygon error type exists, and the sweep in
Polygon::calculate does not even call possible_intersection (all call
sites are commented out); the operation continues and returns a normal
Option result. -/
theorem possible_intersection_always_noop :
    ∀ (e1_p e1_other_p e2_p e2_other_p : Point2D) (t1 t2 : PolygonType),
      possible_intersection e1_p e1_other_p e2_p e2_other_p t1 t2 =
        PIOutcome.noop := by
  intro e1_p e1_other_p e2_p e2_other_p t1 t2
  unfold possible_intersection
  rcases h : line_intersect e1_p e1_other_p e2_p e2_other_p with _ | ⟨pt, q⟩
  · rfl
  · have := line_intersect_snd_none _ _ _ _ _ _ h
    subst this
    rfl

/-- Segment between two points, from src/segment.rs (struct Segment).
The source holds point references; Point2D comparisons there are by
value, so the embedding stores the points themselves. -/
structure Segment where
  begin_pt : Point2D
  end_pt : Point2D
deriving DecidableEq

/-- Point chain, from src/point_chain.rs (struct PointChain): a deque
of points (front = head of the list) plus a closed flag. -/
structure PointChain where
  nodes : List Point2D
  is_closed : Bool
deriving DecidableEq

/-- Chain creation from an initial segment, from src/point_chain.rs
(PointChain::init). -/
def PointChain.init (initial_segment : Segment) : PointChain :=
  { nodes := [initial_segment.begin_pt, initial_segment.end_pt],
    is_closed := false }

/-- Linking a segment to a chain, from src/point_chain.rs
(PointChain::link_segment), translated branch for branch; some(updated
chain) replaces the source's true-plus-mutation, none replaces false.
Chains are never empty in any reachable state (init starts with two
nodes and no branch removes nodes); on an empty chain the source would
panic on front().unwrap(), embedded here as the unreachable none. -/
def PointChain.link_segment (self : PointChain) (segment : Segment) :
    Option PointChain :=
  match self.nodes.head?, self.nodes.getLast? with
  | some first_elem, some last_elem =>
    if segment.begin_pt = first_elem then
      if segment.end_pt = last_elem then
        some { self with is_closed := true }
      else
        some { self with nodes := segment.end_pt :: self.nodes }
    else if segment.end_pt = last_elem then
      if segment.begin_pt = first_elem then
        some { self with is_closed := true }
      else
        some { self with nodes := self.nodes ++ [segment.begin_pt] }
    else if segment.end_pt = first_elem then
      if segment.begin_pt = last_elem then
        some { self with is_closed := true }
      else
        some { self with nodes := segment.begin_pt :: self.nodes }
    else if segment.begin_pt = last_elem then
      if segment.end_pt = first_elem then
        some { self with is_closed := true }
      else
        some { self with nodes := self.nodes ++ [segment.end_pt] }
    else
      none
  | _, _ => none

/-- Linking another chain onto a chain, from src/point_chain.rs
(PointChain::link_point_chain), translated branch for branch.  Each
branch reproduces the deque pushes of the source: case 1 appends the
other chain's tail at the back; case 2 pops this chain's front and then
push_fronts the other chain's nodes in order (which prepends them
reversed); case 3 pops this chain's front and push_fronts the other
chain reversed (prepending it in order); case 4 pops this chain's back
and push_backs the other chain reversed.  The closed flag is never
touched.  none embeds the source's false return. -/
def PointChain.link_point_chain (self : PointChain) (chain : PointChain) :
    Option PointChain :=
  match chain.nodes.head?, self.nodes.getLast? with
  | some chain_first_elem, some self_last_elem =>
    if chain_first_elem = self_last_elem then
      some { self with nodes := self.nodes ++ chain.nodes.tail }
    else
      match chain.nodes.getLast?, self.nodes.head? with
      | some chain_last_elem, some self_first_elem =>
        if chain_last_elem = self_first_elem then
          some { self with nodes := chain.nodes.reverse ++ self.nodes.tail }
        else if chain_first_elem = self_first_elem then
          some { self with nodes := chain.nodes ++ self.nodes.tail }
        else if chain_last_elem = self_last_elem then
          some { self with nodes := self.nodes.dropLast ++ chain.nodes.reverse }
        else
          none
      | _, _ => none
  | _, _ => none

/-- Connector, from src/connector.rs (struct Connector). -/
structure Connector where
  open_polygons : List PointChain
  closed_polygons : List PointChain
deriving DecidableEq

/-- Connector::new, from src/connector.rs. -/
def Connector.new : Connector :=
  { open_polygons := [], closed_polygons := [] }

/-- The first loop of Connector::add_segment (src/connector.rs lines
65-72): find the first open chain the segment links into, returning its
index and the updated chain. -/
def link_into_open (chains : List PointChain) (segment : Segment) :
    Option (Nat × PointChain) :=
  match chains with
  | [] => none
  | ch :: rest =>
    match ch.link_segment segment with
    | some ch2 => some (0, ch2)
    | none => (link_into_open rest segment).map (fun p => (p.1 + 1, p.2))

/-- Exchange the elements at two positions of a list (Vec::swap). -/
def swapIdx (l : List PointChain) (i j : Nat) : List PointChain :=
  match l[i]?, l[j]? with
  | some a, some b => (l.set i b).set j a
  | _, _ => l

/-- The weld loop of Connector::add_segment (src/connector.rs lines
88-96): starting from the chain before the linked one, repeatedly
link_point_chain the chains of the split-off suffix into it; on the
first failure swap that chain with the suffix's last element, stop, and
report that the caller must pop the final open chain. -/
def weldLoop (last_chain : PointChain) (to_append_chains : List PointChain)
    (i : Nat) : PointChain × List PointChain × Bool :=
  if _h : i < to_append_chains.length then
    match last_chain.link_point_chain
        (to_append_chains.getD i ⟨[], false⟩) with
    | some lc2 => weldLoop lc2 to_append_chains (i + 1)
    | none =>
      (last_chain, swapIdx to_append_chains i (to_append_chains.length - 1),
        true)
  else
    (last_chain, to_append_chains, false)
termination_by to_append_chains.length - i
decreasing_by omega

/-- Connector::add_segment, from src/connector.rs lines 63-107,
translated step for step.  When the segment links into the open chain at
index j and does not close it, the source computes
old_chains.len() - 1 where old_chains is the prefix of length j
(line 85); for j = 0 this usize subtraction underflows — an arithmetic
panic in a debug build, and undefined behavior through the following
get_unchecked_mut in a release build — embedded as Except.error. -/
def Connector.add_segment (self : Connector) (segment : Segment) :
    Except Unit Connector :=
  match link_into_open self.open_polygons segment with
  | none =>
    -- the segment cannot be connected with any open polygon
    .ok { self with
          open_polygons := self.open_polygons ++ [PointChain.init segment] }
  | some (j, cj) =>
    if cj.is_closed then
      .ok { self with
            open_polygons := (self.open_polygons.set j cj).eraseIdx j,
            closed_polygons := self.closed_polygons ++ [cj] }
    else
      if j = 0 then
        .error ()
      else
        let opens := self.open_polygons.set j cj
        let old_chains := opens.take j
        let to_append_chains := opens.drop j
        let last_chain := old_chains.getD (j - 1) ⟨[], false⟩
        let res := weldLoop last_chain to_append_chains 0
        let opens2 := (old_chains.set (j - 1) res.1) ++ res.2.1
        .ok { self with
              open_polygons := if res.2.2 then opens2.dropLast else opens2 }

/-- The chain-to-polygon conversion done inline twice in
Connector::to_polygons (src/connector.rs lines 36-58): nodes copied
from the chain, is_closed from the chain, is_hole false and winding
Some(Clockwise) hard-coded (both marked TODO in the source). -/
def chainToPolygon (c : PointChain) : Polygon :=
  { nodes := c.nodes, is_hole := false, is_closed := c.is_closed,
    winding := some .Clockwise }

/-- Connector::to_polygons, from src/connector.rs lines 20-61: drop
empty chains from both collections; if nothing remains return None;
otherwise return the polygons of the remaining open chains followed by
those of the remaining closed chains. -/
def Connector.to_polygons (self : Connector) : Option (List Polygon) :=
  let open_p := self.open_polygons.filter (fun x => !x.nodes.isEmpty)
  let closed_p := self.closed_polygons.filter (fun x => !x.nodes.isEmpty)
  if open_p.isEmpty && closed_p.isEmpty then
    none
  else
    some (open_p.map chainToPolygon ++ closed_p.map chainToPolygon)

/-- C6 counterexample: a Connector holding one non-empty OPEN chain
(the two-point chain (0,0)-(1,1), which no segment ever closed) does
not surface any error from to_polygons: the open chain is silently
converted into an output Polygon with is_closed = false.  No
MalformedResult error type exists in the source; to_polygons returns
plain Option and src/connector.rs lines 36-46 emit open chains as
polygons. -/
theorem to_polygons_emits_open_chain :
    Connector.to_polygons ⟨[⟨[⟨0, 0⟩, ⟨1, 1⟩], false⟩], []⟩ =
      some [⟨[⟨0, 0⟩, ⟨1, 1⟩], false, false, some .Clockwise⟩] := by
  decide


/-- Helper: a list with a member has isEmpty = false. -/
theorem isEmpty_false_of_mem {l : List PointChain} {x : PointChain}
    (h : x ∈ l) : l.isEmpty = false := by
  cases l
  · cases h
  · rfl

/-- C6 amended: every non-empty open chain still present when
to_polygons runs is emitted as an output Polygon carrying the chain's
nodes and its is_closed flag (false for a genuinely open chain); no
error is surfaced — the function's only non-success outcome is the
None of an entirely empty connector. -/
theorem to_polygons_open_chains_in_output :
    ∀ (c : Connector) (ch : PointChain), ch ∈ c.open_polygons →
      ch.nodes ≠ [] →
      ∃ polys, Connector.to_polygons c = some polys ∧
        chainToPolygon ch ∈ polys ∧
        (chainToPolygon ch).nodes = ch.nodes ∧
        (chainToPolygon ch).is_closed = ch.is_closed := by
  intro c ch hmem hne
  have hch : ch ∈ c.open_polygons.filter (fun x => !x.nodes.isEmpty) := by
    refine List.mem_filter.mpr ⟨hmem, ?_⟩
    cases hn : ch.nodes
    · exact absurd hn hne
    · simp [hn]
  have hop : (c.open_polygons.filter (fun x => !x.nodes.isEmpty)).isEmpty
      = false := isEmpty_false_of_mem hch
  refine ⟨(c.open_polygons.filter (fun x => !x.nodes.isEmpty)).map
      chainToPolygon ++
    (c.closed_polygons.filter (fun x => !x.nodes.isEmpty)).map
      chainToPolygon, ?_, ?_, rfl, rfl⟩
  · simp only [Connector.to_polygons]
    rw [hop]
    rfl
  · exact List.mem_append_left _ (List.mem_map_of_mem chainToPolygon hch)

/-- C6 witness: the amended statement applied to a connector with the
single open chain (2,2)-(3,3). -/
theorem to_polygons_open_chains_in_output_witness :
    ∃ polys,
      Connector.to_polygons ⟨[⟨[⟨2, 2⟩, ⟨3, 3⟩], false⟩], []⟩ = some polys ∧
      chainToPolygon ⟨[⟨2, 2⟩, ⟨3, 3⟩], false⟩ ∈ polys ∧
      (chainToPolygon ⟨[⟨2, 2⟩, ⟨3, 3⟩], false⟩).nodes =
        (⟨[⟨2, 2⟩, ⟨3, 3⟩], false⟩ : PointChain).nodes ∧
      (chainToPolygon ⟨[⟨2, 2⟩, ⟨3, 3⟩], false⟩).is_closed =
        (⟨[⟨2, 2⟩, ⟨3, 3⟩], false⟩ : PointChain).is_closed :=
  to_polygons_open_chains_in_output
    ⟨[⟨[⟨2, 2⟩, ⟨3, 3⟩], false⟩], []⟩ ⟨[⟨2, 2⟩, ⟨3, 3⟩], false⟩
    (by decide) (by decide)

/-- C10: to_polygons first drops all empty chains and returns None
exactly when no chain remains; in particular the fresh connector of an
operation whose sweep emitted no segments yields None, and a some
result never carries the empty polygon list. -/
theorem to_polygons_none_iff_no_chains :
    (∀ c : Connector, Connector.to_polygons c = none ↔
      (c.open_polygons.filter (fun x => !x.nodes.isEmpty) = [] ∧
       c.closed_polygons.filter (fun x => !x.nodes.isEmpty) = [])) ∧
    Connector.to_polygons Connector.new = none ∧
    (∀ (c : Connector) (l : List Polygon),
      Connector.to_polygons c = some l → l ≠ []) := by
  refine ⟨?_, by decide, ?_⟩
  · intro c
    simp only [Connector.to_polygons]
    rcases ho : (c.open_polygons.filter (fun x => !x.nodes.isEmpty)) with
        _ | ⟨a, l⟩ <;>
      rcases hc : (c.closed_polygons.filter (fun x => !x.nodes.isEmpty)) with
        _ | ⟨b, m⟩ <;> simp
  · intro c l h
    simp only [Connector.to_polygons] at h
    split at h
    · exact absurd h (by simp)
    · rename_i hcond
      simp only [Option.some.injEq] at h
      intro hl
      rw [hl] at h
      have h1 : (c.open_polygons.filter (fun x => !x.nodes.isEmpty)).map
          chainToPolygon = [] := (List.append_eq_nil.mp h).1
      have h2 : (c.closed_polygons.filter (fun x => !x.nodes.isEmpty)).map
          chainToPolygon = [] := (List.append_eq_nil.mp h).2
      rw [List.map_eq_nil_iff] at h1 h2
      rw [h1, h2] at hcond
      exact hcond rfl

/-- C10 witness: a connector with one closed triangle chain yields a
non-empty some result. -/
theorem to_polygons_none_iff_no_chains_witness :
    ([⟨[⟨0, 0⟩, ⟨1, 0⟩, ⟨0, 1⟩], false, true, some .Clockwise⟩] :
      List Polygon) ≠ [] :=
  to_polygons_none_iff_no_chains.2.2
    ⟨[], [⟨[⟨0, 0⟩, ⟨1, 0⟩, ⟨0, 1⟩], true⟩]⟩
    [⟨[⟨0, 0⟩, ⟨1, 0⟩, ⟨0, 1⟩], false, true, some .Clockwise⟩]
    (by decide)

/-- Sweep event as laid out by create_sweep_events, from
src/polygon.rs (fn create_sweep_events) and src/sweep_event.rs (struct
SweepEvent).  The source materialises a Vec of SweepEventRef cells in
which the event of edge i at the edge's start point is written at index
2*i and the event at the edge's end point at index 2*i+1, each holding
a raw pointer to the other; the pointer is embedded as the twin's index
in that vector (field other). -/
structure SweepEventIdx where
  p : Point2D
  other : Nat
  polygon_type : PolygonType
  position_in_sweep_line : Nat
  left : Bool
  in_out : Bool
  is_inside : Bool
  edge_type : EdgeType
deriving DecidableEq

/-- Placeholder event used as the out-of-range default of list
indexing (never read under the bounds established below). -/
def dummyEvent : SweepEventIdx :=
  ⟨⟨0, 0⟩, 0, PolygonType.Subject, 0, false, false, false, EdgeType.Normal⟩

/-- The left flag of the event at the edge's start point, from the
mutable flag pair of src/polygon.rs lines 332-345: both flags start
true; a strictly smaller start x keeps e1 left, a strictly larger start
x clears it, equal x falls through to the y comparison (vertical edge:
the bottom endpoint is the left endpoint). -/
def e1LeftFlag (cur_point next_point : Point2D) : Bool :=
  if cur_point.x < next_point.x then true
  else if next_point.x < cur_point.x then false
  else if cur_point.y < next_point.y then true
  else false

/-- The left flag of the event at the edge's end point, from the same
flag pair (e2_left of src/polygon.rs lines 332-345). -/
def e2LeftFlag (cur_point next_point : Point2D) : Bool :=
  if cur_point.x < next_point.x then false
  else if next_point.x < cur_point.x then true
  else if cur_point.y < next_point.y then false
  else true

/-- The event written at index 2*i (e1 of src/polygon.rs lines
350-363): start point of edge i, twin at index 2*i+1, all state flags
at their creation defaults. -/
def e1At (nodes : List Point2D) (polygon_type : PolygonType) (i : Nat) :
    SweepEventIdx :=
  let cur_point := nodes.getD i ⟨0, 0⟩
  let next_point := nodes.getD ((i + 1) % nodes.length) ⟨0, 0⟩
  ⟨cur_point, 2 * i + 1, polygon_type, 0, e1LeftFlag cur_point next_point,
    false, false, EdgeType.Normal⟩

/-- The event written at index 2*i+1 (e2 of src/polygon.rs lines
365-379): end point of edge i, twin at index 2*i. -/
def e2At (nodes : List Point2D) (polygon_type : PolygonType) (i : Nat) :
    SweepEventIdx :=
  let cur_point := nodes.getD i ⟨0, 0⟩
  let next_point := nodes.getD ((i + 1) % nodes.length) ⟨0, 0⟩
  ⟨next_point, 2 * i, polygon_type, 0, e2LeftFlag cur_point next_point,
    false, false, EdgeType.Normal⟩

/-- Edge-to-event conversion, from src/polygon.rs
(fn create_sweep_events): the source iterates the node list zipped with
itself shifted by one (wrapping), so edge i runs from nodes[i] to
nodes[(i+1) mod n], and appends the pair of twinned events of each
edge at indices 2*i and 2*i+1. -/
def create_sweep_events (nodes : List Point2D) (polygon_type : PolygonType) :
    List SweepEventIdx :=
  (List.range nodes.length).flatMap
    (fun i => [e1At nodes polygon_type i, e2At nodes polygon_type i])

/-- Helper: a flatMap of two-element blocks over range n is the map of
the blockwise formula over range 2n. -/
theorem flatMap_two {α : Type} (f g : Nat → α) :
    ∀ n : Nat, (List.range n).flatMap (fun i => [f i, g i]) =
      (List.range (2 * n)).map
        (fun k => if k % 2 = 0 then f (k / 2) else g (k / 2)) := by
  intro n
  induction n with
  | zero => rfl
  | succ m ih =>
    have h2 : 2 * (m + 1) = (2 * m + 1) + 1 := by ring
    have e0 : (2 * m) % 2 = 0 := by omega
    have e1 : (2 * m) / 2 = m := by omega
    have e2 : (2 * m + 1) % 2 = 1 := by omega
    have e3 : (2 * m + 1) / 2 = m := by omega
    rw [List.range_succ, List.flatMap_append, ih, h2, List.range_succ,
      List.range_succ, List.map_append, List.map_append]
    simp [e0, e1, e2, e3]

/-- Helper: the event vector element at index k, for k < 2n. -/
theorem create_sweep_events_getD (nodes : List Point2D)
    (polygon_type : PolygonType) (k : Nat)
    (hk : k < 2 * nodes.length) :
    (create_sweep_events nodes polygon_type).getD k dummyEvent =
      (if k % 2 = 0 then e1At nodes polygon_type (k / 2)
       else e2At nodes polygon_type (k / 2)) := by
  unfold create_sweep_events
  rw [flatMap_two, List.getD_eq_getElem?_getD, List.getElem?_map,
    List.getElem?_range hk]
  rfl

/-- Helper: the event vector has length 2n. -/
theorem create_sweep_events_length (nodes : List Point2D)
    (polygon_type : PolygonType) :
    (create_sweep_events nodes polygon_type).length = 2 * nodes.length := by
  unfold create_sweep_events
  rw [flatMap_two, List.length_map, List.length_range]

/-- Helper: the two left flags of a twinned pair always disagree. -/
theorem e1LeftFlag_ne_e2LeftFlag (cur_point next_point : Point2D) :
    e1LeftFlag cur_point next_point = !e2LeftFlag cur_point next_point := by
  unfold e1LeftFlag e2LeftFlag
  split_ifs <;> rfl

/-- The lexicographic (x, then y) order on points used to state which
endpoint of an edge is its left endpoint. -/
def lexLe (p q : Point2D) : Prop :=
  p.x < q.x ∨ (p.x = q.x ∧ p.y ≤ q.y)

/-- Helper: a true e1 flag means the start point is lexicographically
at most the end point. -/
theorem e1LeftFlag_true_lex (cur_point next_point : Point2D)
    (h : e1LeftFlag cur_point next_point = true) :
    lexLe cur_point next_point := by
  unfold e1LeftFlag at h
  unfold lexLe
  split_ifs at h with h1 h2 h3
  · exact Or.inl h1
  · exact Or.inr ⟨le_antisymm (not_lt.mp h2) (not_lt.mp h1), le_of_lt h3⟩

/-- Helper: a false e1 flag means the end point is lexicographically
at most the start point. -/
theorem e1LeftFlag_false_lex (cur_point next_point : Point2D)
    (h : e1LeftFlag cur_point next_point = false) :
    lexLe next_point cur_point := by
  unfold e1LeftFlag at h
  unfold lexLe
  split_ifs at h with h1 h2 h3
  · exact Or.inl h2
  · exact Or.inr ⟨le_antisymm (not_lt.mp h1) (not_lt.mp h2),
      not_lt.mp h3⟩

/-- Projection: twin index of the start-point event. -/
theorem e1At_other (nodes : List Point2D) (pt : PolygonType) (i : Nat) :
    (e1At nodes pt i).other = 2 * i + 1 := rfl

/-- Projection: twin index of the end-point event. -/
theorem e2At_other (nodes : List Point2D) (pt : PolygonType) (i : Nat) :
    (e2At nodes pt i).other = 2 * i := rfl

/-- Projection: point of the start-point event. -/
theorem e1At_p (nodes : List Point2D) (pt : PolygonType) (i : Nat) :
    (e1At nodes pt i).p = nodes.getD i ⟨0, 0⟩ := rfl

/-- Projection: point of the end-point event. -/
theorem e2At_p (nodes : List Point2D) (pt : PolygonType) (i : Nat) :
    (e2At nodes pt i).p = nodes.getD ((i + 1) % nodes.length) ⟨0, 0⟩ := rfl

/-- Projection: left flag of the start-point event. -/
theorem e1At_left (nodes : List Point2D) (pt : PolygonType) (i : Nat) :
    (e1At nodes pt i).left =
      e1LeftFlag (nodes.getD i ⟨0, 0⟩)
        (nodes.getD ((i + 1) % nodes.length) ⟨0, 0⟩) := rfl

/-- Projection: left flag of the end-point event. -/
theorem e2At_left (nodes : List Point2D) (pt : PolygonType) (i : Nat) :
    (e2At nodes pt i).left =
      e2LeftFlag (nodes.getD i ⟨0, 0⟩)
        (nodes.getD ((i + 1) % nodes.length) ⟨0, 0⟩) := rfl

/-- Projection: source tag of the start-point event. -/
theorem e1At_ptype (nodes : List Point2D) (pt : PolygonType) (i : Nat) :
    (e1At nodes pt i).polygon_type = pt := rfl

/-- Projection: source tag of the end-point event. -/
theorem e2At_ptype (nodes : List Point2D) (pt : PolygonType) (i : Nat) :
    (e2At nodes pt i).polygon_type = pt := rfl


/-- C9: the twin invariant of edge-to-event conversion.  For every node
list, source tag and index k into the produced event vector: the twin
index is in range; following it twice returns to k (the twin relation
is symmetric); twins carry the same source tag; exactly one event of
the pair has left = true (the flags disagree); and the left event sits
at the lexicographically smaller (x, then y) endpoint — for a vertical
edge the lower endpoint. -/
theorem create_sweep_events_twin_invariant (nodes : List Point2D)
    (polygon_type : PolygonType) (k : Nat)
    (hk : k < (create_sweep_events nodes polygon_type).length) :
    ((create_sweep_events nodes polygon_type).getD k dummyEvent).other <
      (create_sweep_events nodes polygon_type).length ∧
    ((create_sweep_events nodes polygon_type).getD
        ((create_sweep_events nodes polygon_type).getD k dummyEvent).other
        dummyEvent).other = k ∧
    ((create_sweep_events nodes polygon_type).getD
        ((create_sweep_events nodes polygon_type).getD k dummyEvent).other
        dummyEvent).polygon_type =
      ((create_sweep_events nodes polygon_type).getD k
        dummyEvent).polygon_type ∧
    ((create_sweep_events nodes polygon_type).getD
        ((create_sweep_events nodes polygon_type).getD k dummyEvent).other
        dummyEvent).left =
      !((create_sweep_events nodes polygon_type).getD k dummyEvent).left ∧
    (((create_sweep_events nodes polygon_type).getD k dummyEvent).left =
        true →
      lexLe ((create_sweep_events nodes polygon_type).getD k dummyEvent).p
        ((create_sweep_events nodes polygon_type).getD
          ((create_sweep_events nodes polygon_type).getD k dummyEvent).other
          dummyEvent).p) ∧
    (((create_sweep_events nodes polygon_type).getD k dummyEvent).left =
        false →
      lexLe ((create_sweep_events nodes polygon_type).getD
          ((create_sweep_events nodes polygon_type).getD k dummyEvent).other
          dummyEvent).p
        ((create_sweep_events nodes polygon_type).getD k dummyEvent).p) := by
  have hlen := create_sweep_events_length nodes polygon_type
  rw [hlen] at hk ⊢
  rcases Nat.mod_two_eq_zero_or_one k with hpar | hpar
  · -- k is even: the event is e1 of edge k/2, its twin e2 at k+1
    have he : (create_sweep_events nodes polygon_type).getD k dummyEvent =
        e1At nodes polygon_type (k / 2) := by
      rw [create_sweep_events_getD _ _ _ hk, if_pos hpar]
    have hk1 : k + 1 < 2 * nodes.length := by omega
    have hoth : (e1At nodes polygon_type (k / 2)).other = k + 1 := by
      rw [e1At_other]
      omega
    have ht : (create_sweep_events nodes polygon_type).getD
        ((create_sweep_events nodes polygon_type).getD k dummyEvent).other
        dummyEvent = e2At nodes polygon_type (k / 2) := by
      rw [he, hoth, create_sweep_events_getD _ _ _ hk1,
        if_neg (by omega : ¬(k + 1) % 2 = 0)]
      congr 1
      omega
    rw [ht, he, hoth, e2At_other, e1At_ptype, e2At_ptype, e1At_left,
      e2At_left, e1At_p, e2At_p]
    refine ⟨by omega, by omega, rfl, ?_, ?_, ?_⟩
    · rw [e1LeftFlag_ne_e2LeftFlag]
      simp
    · intro h
      exact e1LeftFlag_true_lex _ _ h
    · intro h
      exact e1LeftFlag_false_lex _ _ h
  · -- k is odd: the event is e2 of edge k/2, its twin e1 at k-1
    have he : (create_sweep_events nodes polygon_type).getD k dummyEvent =
        e2At nodes polygon_type (k / 2) := by
      rw [create_sweep_events_getD _ _ _ hk,
        if_neg (by omega : ¬k % 2 = 0)]
    have hk1 : 2 * (k / 2) < 2 * nodes.length := by omega
    have ht : (create_sweep_events nodes polygon_type).getD
        ((create_sweep_events nodes polygon_type).getD k dummyEvent).other
        dummyEvent = e1At nodes polygon_type (k / 2) := by
      rw [he, e2At_other, create_sweep_events_getD _ _ _ hk1,
        if_pos (by omega : (2 * (k / 2)) % 2 = 0)]
      congr 1
      omega
    rw [ht, he, e2At_other, e1At_other, e1At_ptype, e2At_ptype, e1At_left,
      e2At_left, e1At_p, e2At_p]
    refine ⟨by omega, by omega, rfl, ?_, ?_, ?_⟩
    · rw [e1LeftFlag_ne_e2LeftFlag]
    · intro h
      exact e1LeftFlag_false_lex _ _
        (by rw [e1LeftFlag_ne_e2LeftFlag, h]; rfl)
    · intro h
      exact e1LeftFlag_true_lex _ _
        (by rw [e1LeftFlag_ne_e2LeftFlag, h]; rfl)

/-- Concrete triangle node list used to instantiate the invariant. -/
def c9nodes : List Point2D := [⟨0, 0⟩, ⟨2, 0⟩, ⟨1, 2⟩]

/-- C9 witness: the twin invariant applied at k = 0 of the subject
events of a concrete triangle. -/
theorem create_sweep_events_twin_invariant_witness :
    ((create_sweep_events c9nodes PolygonType.Subject).getD 0
        dummyEvent).other <
      (create_sweep_events c9nodes PolygonType.Subject).length ∧
    ((create_sweep_events c9nodes PolygonType.Subject).getD
        ((create_sweep_events c9nodes PolygonType.Subject).getD 0
          dummyEvent).other dummyEvent).other = 0 ∧
    ((create_sweep_events c9nodes PolygonType.Subject).getD
        ((create_sweep_events c9nodes PolygonType.Subject).getD 0
          dummyEvent).other dummyEvent).polygon_type =
      ((create_sweep_events c9nodes PolygonType.Subject).getD 0
        dummyEvent).polygon_type ∧
    ((create_sweep_events c9nodes PolygonType.Subject).getD
        ((create_sweep_events c9nodes PolygonType.Subject).getD 0
          dummyEvent).other dummyEvent).left =
      !((create_sweep_events c9nodes PolygonType.Subject).getD 0
        dummyEvent).left ∧
    (((create_sweep_events c9nodes PolygonType.Subject).getD 0
        dummyEvent).left = true →
      lexLe ((create_sweep_events c9nodes PolygonType.Subject).getD 0
          dummyEvent).p
        ((create_sweep_events c9nodes PolygonType.Subject).getD
          ((create_sweep_events c9nodes PolygonType.Subject).getD 0
            dummyEvent).other dummyEvent).p) ∧
    (((create_sweep_events c9nodes PolygonType.Subject).getD 0
        dummyEvent).left = false →
      lexLe ((create_sweep_events c9nodes PolygonType.Subject).getD
          ((create_sweep_events c9nodes PolygonType.Subject).getD 0
            dummyEvent).other dummyEvent).p
        ((create_sweep_events c9nodes PolygonType.Subject).getD 0
          dummyEvent).p) :=
  create_sweep_events_twin_invariant c9nodes PolygonType.Subject 0
    (by decide)

/-- The six directed edges of the triangle (0,0),(2,0),(1,2) — each of
the three boundary edges in both orientations, covering every
orientation in which the sweep loop can emit them. -/
def triEdges : List Segment :=
  [⟨⟨0, 0⟩, ⟨2, 0⟩⟩, ⟨⟨2, 0⟩, ⟨1, 2⟩⟩, ⟨⟨1, 2⟩, ⟨0, 0⟩⟩,
   ⟨⟨2, 0⟩, ⟨0, 0⟩⟩, ⟨⟨1, 2⟩, ⟨2, 0⟩⟩, ⟨⟨0, 0⟩, ⟨1, 2⟩⟩]

/-- Do two directed segments cover the same undirected edge? -/
def sameUndirected (s1 s2 : Segment) : Bool :=
  decide (s1 = s2) ||
  (decide (s1.begin_pt = s2.end_pt) && decide (s1.end_pt = s2.begin_pt))

/-- Did the connector step abort (the usize underflow of
Connector::add_segment)? -/
def isErr : Except Unit Connector → Bool
  | .error _ => true
  | .ok _ => false

/-- C8: difference(A, A) cannot return the empty result, because the
sweep emits the subject's own edges and the Connector then aborts.
First conjunct: under Difference, a Normal Subject right event whose
twin has is_inside = false IS emitted (src/polygon.rs lines 277-282).
Second conjunct: for the triangle A = (0,0),(2,0),(1,2), every event
created for it has is_inside = false and edge_type Normal — and the
code that would ever change those flags (set_inside_flag_of_left_
endpoint, divide_segment, the edge_type assignments) is commented out
of the sweep loop, so all three subject edges pass the emission test.
Third conjunct: adding any two of those edges (in any orientation, as
long as they are distinct edges) to a fresh Connector aborts: the
second segment links into the open chain at index 0 without closing it,
and add_segment computes old_chains.len() - 1 = 0 - 1, a usize
underflow (debug panic; release undefined behavior through
get_unchecked_mut).  So difference(A, A) dies in the Connector instead
of producing the empty result the claim (and the crate documentation of
subtraction in src/lib.rs) requires. -/
theorem difference_self_emits_and_underflows :
    emit_right_event EdgeType.Normal BoolOpType.Difference
      PolygonType.Subject false = true ∧
    ((create_sweep_events c9nodes PolygonType.Subject).all
      (fun e => !e.is_inside && decide (e.edge_type = EdgeType.Normal)))
      = true ∧
    (triEdges.all fun s1 => triEdges.all fun s2 =>
      sameUndirected s1 s2 ||
        isErr ((Connector.new.add_segment s1).bind
          (fun c => c.add_segment s2))) = true := by
  refine ⟨rfl, by decide, by decide⟩
